import Mathlib

/-!
Shallow embedding of the opendal core fragments under verification:
the `Scheme` string mapping (src/core/src/types/scheme.rs) and the
response-handling logic of the GCS and WebHDFS backends
(src/core/src/services/gcs/backend.rs, src/core/src/services/webhdfs/backend.rs).

Each backend operation is embedded as the pure function that maps the
already-received HTTP response (statuses as `Nat`, bodies as `String`,
JSON payloads as their decoded form) to the operation's `Except Error`
result, mirroring the Rust handler branch by branch.  The network send
itself is the suspension point; quantifying a theorem over the response
argument expresses that the outcome is independent of any network call.
-/

namespace Opendal

/-- HTTP status code, as the numeric value of http::StatusCode. -/
abbrev Status := Nat

/-- http::StatusCode::is_success: 2xx statuses. -/
def statusIsSuccess (s : Status) : Bool := 200 ≤ s && s < 300

/-- The closed error taxonomy (crate::ErrorKind), restricted to the kinds
the embedded code constructs. -/
inductive ErrorKind
  | ConfigInvalid
  | Unsupported
  | NotFound
  | AlreadyExists
  | Unexpected
  deriving DecidableEq, Repr

/-- crate::Error: kind, message and the context list built by with_context. -/
structure Error where
  kind : ErrorKind
  message : String
  context : List (String × String) := []
  deriving DecidableEq, Repr

/-- Error::with_context appends one (key, value) pair. -/
def Error.with_context (e : Error) (k v : String) : Error :=
  { e with context := e.context ++ [(k, v)] }

/-- Lookup of a context key inside an Error. -/
def Error.ctxGet (e : Error) (k : String) : Option String :=
  (e.context.find? (fun kv => kv.1 == k)).map Prod.snd

/-- Modelled from the spec: `parse_error` / `parse_error_msg`
(services/gcs/error.rs and services/webhdfs/error.rs are not under src/).
Per the error-normalization funnel, a backend-reported non-success status is
classified into the closed taxonomy; 404 is the missing-object case mapped to
NotFound, anything else lands in a best-effort classification modelled here as
Unexpected.  No theorem below depends on this classification beyond the result
being an error value. -/
def parse_error (status : Status) : Error :=
  if status == 404 then { kind := .NotFound, message := "backend reported not found" }
  else { kind := .Unexpected, message := "backend reported error" }

/-- Modelled from the spec: `new_json_deserialize_error` (raw/ helpers are not
under src/): a malformed payload on an ostensibly-OK response becomes
Unexpected. -/
def new_json_deserialize_error : Error :=
  { kind := .Unexpected, message := "deserialize json" }

/-- Boolean success projection of an `Except Error` result. -/
def exceptIsOk : Except Error α → Bool
  | .ok _ => true
  | .error _ => false

/-- EntryMode (crate::EntryMode): FILE or DIR. -/
inductive EntryMode
  | FILE
  | DIR
  deriving DecidableEq, Repr

/-- A datetime value as the backends construct it: chrono is external, so the
value is kept as the datum it was built from. -/
inductive Datetime
  | ofRfc3339 (s : String)
  | ofMillis (ms : Int)
  deriving DecidableEq, Repr

/-- Modelled from the spec: `parse_datetime_from_rfc3339` (raw/ helper, not
under src/) turns the backend-reported RFC3339 string into the optional
last-modified field. -/
def parse_datetime_from_rfc3339 (s : String) : Except Error Datetime :=
  .ok (.ofRfc3339 s)

/-- Modelled from the spec: `parse_datetime_from_from_timestamp_millis`
(raw/ helper, not under src/). -/
def parse_datetime_from_from_timestamp_millis (ms : Int) : Except Error Datetime :=
  .ok (.ofMillis ms)

/-- crate::Metadata, restricted to the fields the embedded handlers populate. -/
structure Metadata where
  mode : EntryMode
  content_length : Option Nat := none
  etag : Option String := none
  content_md5 : Option String := none
  content_type : Option String := none
  last_modified : Option Datetime := none
  deriving DecidableEq, Repr

/-- RpStat wraps the normalized Metadata. -/
structure RpStat where
  meta : Metadata
  deriving DecidableEq, Repr

/-- RpDelete carries no data. -/
abbrev RpDelete := Unit

/-- RpCreateDir carries no data. -/
abbrev RpCreateDir := Unit

/-- RpList carries no data. -/
abbrev RpList := Unit

/-- RpRead: the optional resolved content length (RpRead::new() leaves it
unset; with_size fills it). -/
structure RpRead where
  size : Option Nat := none
  deriving DecidableEq, Repr

/-- Rust `str::to_lowercase`, char-wise on the embedded (ASCII) inputs. -/
def rustToLowercase (s : String) : String :=
  String.mk (s.data.map Char.toLower)

/-- Whether every char of the string is already lowercase. -/
def isLowercaseStr (s : String) : Bool :=
  s.data.all (fun c => c.toLower == c)

/-- Rust `str::parse::<u64>()`: optional leading plus sign, at least one
digit, nothing else, and the value must fit in 64 bits. -/
def rustParseU64 (s : String) : Option Nat :=
  let cs := match s.data with
    | '+' :: rest => rest
    | cs => cs
  if cs.isEmpty then none
  else if cs.all (fun c => c.isDigit) then
    let v := cs.foldl (fun a c => a * 10 + (c.toNat - 48)) 0
    if v < 2 ^ 64 then some v else none
  else none

/-- Rust `str::trim_end_matches(c)`: drop every trailing occurrence of c. -/
def rustTrimEndMatches (s : String) (c : Char) : String :=
  String.mk (s.data.reverse.dropWhile (fun x => x == c)).reverse

/-- Rust `str::trim_matches(c)`: drop every leading and trailing occurrence. -/
def trimMatches (s : String) (c : Char) : String :=
  String.mk ((s.data.dropWhile (fun x => x == c)).reverse.dropWhile
    (fun x => x == c)).reverse

/-- Rust `str::strip_prefix` as an Option, written over the char list. -/
def stripLeading (p s : String) : Option String :=
  if p.data.isPrefixOf s.data then some (String.mk (s.data.drop p.data.length))
  else none

/-- Rust `str::ends_with(c)` for a one-char pattern, over the char list. -/
def strEndsWith (s pat : String) : Bool :=
  List.isSuffixOf pat.data s.data

/-- Substring test over char lists (Rust `str::contains(pat)`). -/
def containsSubstrList (pat : List Char) : List Char → Bool
  | [] => pat == []
  | c :: cs => pat.isPrefixOf (c :: cs) || containsSubstrList pat cs

/-- Rust `str::contains(pat)` for string pattern. -/
def containsSubstr (s pat : String) : Bool :=
  containsSubstrList pat.data s.data

/-!  ## Scheme (src/core/src/types/scheme.rs)  -/

/-- The Scheme enumeration: every well-known service backend kind plus the
open Custom escape carrying a lowercase name. -/
inductive Scheme
  | Atomicserver
  | Azblob
  | Azdls
  | Cacache
  | CloudflareKv
  | Cos
  | D1
  | Dashmap
  | Etcd
  | Foundationdb
  | Dbfs
  | Fs
  | Ftp
  | Gcs
  | Ghac
  | Hdfs
  | Http
  | Ipfs
  | Ipmfs
  | Memcached
  | Memory
  | MiniMoka
  | Moka
  | Obs
  | Onedrive
  | Gdrive
  | Dropbox
  | Oss
  | Persy
  | Redis
  | Postgresql
  | Libsql
  | Mysql
  | Sqlite
  | Rocksdb
  | S3
  | Sftp
  | Sled
  | Supabase
  | Swift
  | VercelArtifacts
  | Webdav
  | Webhdfs
  | Redb
  | Tikv
  | Azfile
  | Mongodb
  | Gridfs
  | Custom (name : String)
  deriving DecidableEq, Repr

/-- Whether the scheme is the open Custom escape. -/
def Scheme.isCustom : Scheme → Bool
  | .Custom _ => true
  | _ => false

/-- From<Scheme> for &'static str (canonical lowercase string form);
into_static delegates to it. -/
def Scheme.into_static : Scheme → String
  | .Atomicserver => "atomicserver"
  | .Azblob => "azblob"
  | .Azdls => "azdls"
  | .Cacache => "cacache"
  | .CloudflareKv => "cloudflare_kv"
  | .Cos => "cos"
  | .D1 => "d1"
  | .Dashmap => "dashmap"
  | .Etcd => "etcd"
  | .Dbfs => "dbfs"
  | .Fs => "fs"
  | .Gcs => "gcs"
  | .Ghac => "ghac"
  | .Gridfs => "gridfs"
  | .Hdfs => "hdfs"
  | .Http => "http"
  | .Foundationdb => "foundationdb"
  | .Ftp => "ftp"
  | .Ipfs => "ipfs"
  | .Ipmfs => "ipmfs"
  | .Libsql => "libsql"
  | .Memcached => "memcached"
  | .Memory => "memory"
  | .MiniMoka => "mini_moka"
  | .Moka => "moka"
  | .Obs => "obs"
  | .Onedrive => "onedrive"
  | .Persy => "persy"
  | .Postgresql => "postgresql"
  | .Mysql => "mysql"
  | .Gdrive => "gdrive"
  | .Dropbox => "dropbox"
  | .Redis => "redis"
  | .Rocksdb => "rocksdb"
  | .S3 => "s3"
  | .Sftp => "sftp"
  | .Sled => "sled"
  | .Supabase => "supabase"
  | .Swift => "swift"
  | .VercelArtifacts => "vercel_artifacts"
  | .Oss => "oss"
  | .Webdav => "webdav"
  | .Webhdfs => "webhdfs"
  | .Redb => "redb"
  | .Tikv => "tikv"
  | .Azfile => "azfile"
  | .Sqlite => "sqlite"
  | .Mongodb => "mongodb"
  | .Custom v => v

/-- The well-known arms of FromStr::from_str's match on the lowercased
input; `none` stands for the catch-all arm. -/
def Scheme.fromStrCore : String → Option Scheme
  | "atomicserver" => some .Atomicserver
  | "azblob" => some .Azblob
  | "azdls" => some .Azdls
  | "azdfs" => some .Azdls
  | "abfs" => some .Azdls
  | "cacache" => some .Cacache
  | "cloudflare_kv" => some .CloudflareKv
  | "cos" => some .Cos
  | "d1" => some .D1
  | "dashmap" => some .Dashmap
  | "dropbox" => some .Dropbox
  | "etcd" => some .Etcd
  | "dbfs" => some .Dbfs
  | "fs" => some .Fs
  | "gcs" => some .Gcs
  | "gdrive" => some .Gdrive
  | "ghac" => some .Ghac
  | "gridfs" => some .Gridfs
  | "hdfs" => some .Hdfs
  | "http" => some .Http
  | "https" => some .Http
  | "ftp" => some .Ftp
  | "ftps" => some .Ftp
  | "ipfs" => some .Ipfs
  | "ipns" => some .Ipfs
  | "ipmfs" => some .Ipmfs
  | "libsql" => some .Libsql
  | "memcached" => some .Memcached
  | "memory" => some .Memory
  | "mysql" => some .Mysql
  | "sqlite" => some .Sqlite
  | "mini_moka" => some .MiniMoka
  | "moka" => some .Moka
  | "obs" => some .Obs
  | "onedrive" => some .Onedrive
  | "persy" => some .Persy
  | "postgresql" => some .Postgresql
  | "redb" => some .Redb
  | "redis" => some .Redis
  | "rocksdb" => some .Rocksdb
  | "s3" => some .S3
  | "sftp" => some .Sftp
  | "sled" => some .Sled
  | "supabase" => some .Supabase
  | "swift" => some .Swift
  | "oss" => some .Oss
  | "vercel_artifacts" => some .VercelArtifacts
  | "webdav" => some .Webdav
  | "webhdfs" => some .Webhdfs
  | "tikv" => some .Tikv
  | "azfile" => some .Azfile
  | "mongodb" => some .Mongodb
  | _ => none

/-- FromStr::from_str: lowercase the input, map a well-known string to its
variant and anything else to Custom of the lowercased string.  The Rust
signature returns Result but every arm is Ok, so the embedding returns the
Scheme directly. -/
def Scheme.from_str (s : String) : Scheme :=
  let t := rustToLowercase s
  match Scheme.fromStrCore t with
  | some v => v
  | none => .Custom t

/-!  ## Capability and AccessorInfo (fields set by the two embedded
backends; every other field keeps the ..Default::default() value)  -/

/-- crate::Capability, restricted to the flags the two embedded info()
implementations set; defaults mirror Capability::default(). -/
structure Capability where
  create_dir : Bool := false
  stat : Bool := false
  stat_with_if_match : Bool := false
  stat_with_if_none_match : Bool := false
  read : Bool := false
  read_can_next : Bool := false
  read_with_range : Bool := false
  read_with_if_match : Bool := false
  read_with_if_none_match : Bool := false
  write : Bool := false
  write_can_empty : Bool := false
  write_can_multi : Bool := false
  write_with_content_type : Bool := false
  write_multi_align_size : Option Nat := none
  delete : Bool := false
  copy : Bool := false
  list : Bool := false
  list_with_limit : Bool := false
  list_with_start_after : Bool := false
  list_without_recursive : Bool := false
  list_with_recursive : Bool := false
  batch : Bool := false
  batch_max_operations : Option Nat := none
  presign : Bool := false
  presign_stat : Bool := false
  presign_read : Bool := false
  presign_write : Bool := false
  deriving DecidableEq, Repr

/-- crate::AccessorInfo: scheme, root, display name, capability. -/
structure AccessorInfo where
  scheme : Scheme
  root : String := ""
  name : String := ""
  capability : Capability := {}
  deriving DecidableEq, Repr

/-!  ## Builders (configuration setters; handle-valued fields such as
http_client and customed_token_loader are external collaborators and
carry no string configuration, so they are elided)  -/

/-- GcsBuilder's string configuration state. -/
structure GcsBuilder where
  root : Option String := none
  bucket : String := ""
  endpoint : Option String := none
  scope : Option String := none
  service_account : Option String := none
  credential : Option String := none
  credential_path : Option String := none
  predefined_acl : Option String := none
  default_storage_class : Option String := none
  deriving DecidableEq, Repr

/-- GcsBuilder::root (setter; named set_root since the field keeps the
source name). -/
def GcsBuilder.set_root (b : GcsBuilder) (root : String) : GcsBuilder :=
  if !root.isEmpty then { b with root := some root } else b

/-- GcsBuilder::bucket: assigns unconditionally, no emptiness guard. -/
def GcsBuilder.set_bucket (b : GcsBuilder) (bucket : String) : GcsBuilder :=
  { b with bucket := bucket }

/-- GcsBuilder::scope. -/
def GcsBuilder.set_scope (b : GcsBuilder) (scope : String) : GcsBuilder :=
  if !scope.isEmpty then { b with scope := some scope } else b

/-- GcsBuilder::service_account. -/
def GcsBuilder.set_service_account (b : GcsBuilder) (sa : String) : GcsBuilder :=
  if !sa.isEmpty then { b with service_account := some sa } else b

/-- GcsBuilder::endpoint. -/
def GcsBuilder.set_endpoint (b : GcsBuilder) (endpoint : String) : GcsBuilder :=
  if !endpoint.isEmpty then { b with endpoint := some endpoint } else b

/-- GcsBuilder::credential. -/
def GcsBuilder.set_credential (b : GcsBuilder) (credential : String) : GcsBuilder :=
  if !credential.isEmpty then { b with credential := some credential } else b

/-- GcsBuilder::credential_path. -/
def GcsBuilder.set_credential_path (b : GcsBuilder) (path : String) : GcsBuilder :=
  if !path.isEmpty then { b with credential_path := some path } else b

/-- GcsBuilder::predefined_acl. -/
def GcsBuilder.set_predefined_acl (b : GcsBuilder) (acl : String) : GcsBuilder :=
  if !acl.isEmpty then { b with predefined_acl := some acl } else b

/-- GcsBuilder::default_storage_class. -/
def GcsBuilder.set_default_storage_class (b : GcsBuilder) (class_ : String) :
    GcsBuilder :=
  if !class_.isEmpty then { b with default_storage_class := some class_ } else b

/-- WebhdfsBuilder's configuration state. -/
structure WebhdfsBuilder where
  root : Option String := none
  endpoint : Option String := none
  delegation : Option String := none
  disable_list_batch : Bool := false
  deriving DecidableEq, Repr

/-- WebhdfsBuilder::root. -/
def WebhdfsBuilder.set_root (b : WebhdfsBuilder) (root : String) : WebhdfsBuilder :=
  if !root.isEmpty then { b with root := some root } else b

/-- WebhdfsBuilder::endpoint: trims trailing slashes when non-empty. -/
def WebhdfsBuilder.set_endpoint (b : WebhdfsBuilder) (endpoint : String) :
    WebhdfsBuilder :=
  if !endpoint.isEmpty then
    { b with endpoint := some (rustTrimEndMatches endpoint '/') }
  else b

/-- WebhdfsBuilder::delegation. -/
def WebhdfsBuilder.set_delegation (b : WebhdfsBuilder) (delegation : String) :
    WebhdfsBuilder :=
  if !delegation.isEmpty then { b with delegation := some delegation } else b

/-!  ## GcsBackend (src/core/src/services/gcs/backend.rs)  -/

/-- GcsBackend::info: static descriptor with the native capability set. -/
def GcsBackend.info (root bucket : String) : AccessorInfo :=
  { scheme := .Gcs
    root := root
    name := bucket
    capability :=
      { create_dir := true
        stat := true
        stat_with_if_match := true
        stat_with_if_none_match := true
        read := true
        read_can_next := true
        read_with_range := true
        read_with_if_match := true
        read_with_if_none_match := true
        write := true
        write_can_empty := true
        write_can_multi := true
        write_with_content_type := true
        write_multi_align_size := some (256 * 1024 * 1024)
        delete := true
        copy := true
        list := true
        list_with_limit := true
        list_with_start_after := true
        list_without_recursive := true
        list_with_recursive := true
        batch := true
        batch_max_operations := some 100
        presign := true
        presign_stat := true
        presign_read := true
        presign_write := true } }

/-- A generic HTTP response for handlers that look only at the status
(bodies of success responses are consumed, never parsed). -/
structure HttpResponse where
  status : Status
  body : String := ""
  deriving DecidableEq, Repr

/-- GcsBackend::delete's handling of the delete response: success or 404
(deleting a missing object) is Ok, anything else goes through the error
funnel. -/
def GcsBackend.delete (resp : HttpResponse) : Except Error RpDelete :=
  if statusIsSuccess resp.status || resp.status == 404 then .ok ()
  else .error (parse_error resp.status)

/-- A byte range as in OpRead (offset plus optional length). -/
structure BytesRange where
  offset : Option Nat := none
  size : Option Nat := none
  deriving DecidableEq, Repr

/-- BytesRange::is_full: neither bound set. -/
def BytesRange.is_full (r : BytesRange) : Bool :=
  r.offset == none && r.size == none

/-- OpRead restricted to the argument the embedded read handlers consume. -/
structure OpRead where
  range : BytesRange := {}
  deriving DecidableEq, Repr

/-- A response to a get-object request: status, the parsed Content-Length
header (parse_content_length; a missing header is none) and the body. -/
structure ReadResponse where
  status : Status
  contentLength : Option Nat := none
  body : String := ""
  deriving DecidableEq, Repr

/-- GcsBackend::read's handling of the get-object response: success keeps
the body and resolved size, 416 Range-Not-Satisfiable becomes a successful
empty read, anything else goes through the error funnel. -/
def GcsBackend.read (resp : ReadResponse) : Except Error (RpRead × String) :=
  if statusIsSuccess resp.status then
    .ok ({ size := resp.contentLength }, resp.body)
  else if resp.status == 416 then
    .ok ({ size := none }, "")
  else .error (parse_error resp.status)

/-- The decoded JSON body of a GCS get-object-metadata response
(GetObjectJsonResponse; serde defaults every field to the empty string). -/
structure GetObjectJsonResponse where
  size : String := ""
  etag : String := ""
  updated : String := ""
  md5Hash : String := ""
  contentType : String := ""
  deriving DecidableEq, Repr

/-- A GCS stat response: status plus the decoded JSON body (none models a
serde_json parse failure). -/
structure GStatResponse where
  status : Status
  jsonBody : Option GetObjectJsonResponse := none
  deriving DecidableEq, Repr

/-- GcsBackend::stat: the root path is DIR unconditionally (before any
request); a success response is decoded into Metadata; a 404 on a
trailing-slash path is an implicit empty DIR; anything else errors. -/
def GcsBackend.stat (path : String) (resp : GStatResponse) : Except Error RpStat :=
  if path == "/" then .ok { meta := { mode := .DIR } }
  else if statusIsSuccess resp.status then
    match resp.jsonBody with
    | none => .error new_json_deserialize_error
    | some meta =>
      let mode := if strEndsWith path "/" then EntryMode.DIR else EntryMode.FILE
      match rustParseU64 meta.size with
      | none => .error { kind := .Unexpected, message := "parse u64" }
      | some size =>
        match parse_datetime_from_rfc3339 meta.updated with
        | .error e => .error e
        | .ok t =>
          .ok { meta :=
            { mode := mode
              etag := some meta.etag
              content_md5 := some meta.md5Hash
              content_length := some size
              content_type :=
                if !meta.contentType.isEmpty then some meta.contentType else none
              last_modified := some t } }
  else if resp.status == 404 && strEndsWith path "/" then
    .ok { meta := { mode := .DIR } }
  else .error (parse_error resp.status)

/-- The batch sub-operation kind (BatchOperation; only Delete exists). -/
inductive BatchOperation
  | Delete
  deriving DecidableEq, Repr

/-- The per-item reply kind inside RpBatch (BatchedReply). -/
inductive BatchedReply
  | Delete
  deriving DecidableEq, Repr

/-- The aggregate response to a GCS batch request.  `parts` holds the
statuses of the decoded multipart parts.  Modelled from the spec: the
multipart splitter itself (raw Multipart::parse, not under src/) turns the
aggregate body and boundary into independent per-part responses; none models
a decode failure that the `?` operator propagates. -/
structure BatchResponse where
  status : Status
  contentType : Option String := none
  parts : Option (List Status) := none
  deriving DecidableEq, Repr

/-- The per-part loop of GcsBackend::batch: part i is paired with input path
i; a success or 404 part is a per-item Ok (deleting missing objects is ok),
any other part status a per-item Err.  `none` models the Rust index panic
when there are more parts than input paths. -/
def gcsBatchLoop : List String → List Status →
    Option (List (String × Except Error BatchedReply))
  | _, [] => some []
  | [], _ :: _ => none
  | p :: ps, st :: rest =>
    match gcsBatchLoop ps rest with
    | none => none
    | some acc =>
      if statusIsSuccess st || st == 404 then some ((p, .ok .Delete) :: acc)
      else some ((p, .error (parse_error st)) :: acc)

/-- GcsBackend::batch: more than 100 operations are rejected as Unsupported
with the count in the context before any request; a 200 aggregate response
is split into per-item outcomes; any other aggregate status is one whole-
batch error.  The outer Option models the Rust panic of the indexing loop. -/
def GcsBackend.batch (ops : List (String × BatchOperation)) (resp : BatchResponse) :
    Option (Except Error (List (String × Except Error BatchedReply))) :=
  if ops.length > 100 then
    some (.error (Error.with_context
      { kind := .Unsupported
        message := "gcs services only allow delete less than 100 keys at once" }
      "length" (toString ops.length)))
  else
    let paths := ops.map Prod.fst
    if resp.status == 200 then
      match resp.contentType with
      | none => some (.error
          { kind := .Unexpected
            message := "gcs batch delete response content type is empty" })
      | some ct =>
        match stripLeading "multipart/mixed; boundary=" ct with
        | none => some (.error
            { kind := .Unexpected
              message := "gcs batch delete response content type is not multipart/mixed" })
        | some b =>
          let _boundary := trimMatches b '"'
          match resp.parts with
          | none => some (.error
              { kind := .Unexpected
                message := "multipart decode failed" })
          | some parts =>
            match gcsBatchLoop paths parts with
            | none => none
            | some rs => some (.ok rs)
    else some (.error (parse_error resp.status))

/-!  ## WebhdfsBackend (src/core/src/services/webhdfs/backend.rs)  -/

/-- WebhdfsBackend::info: static descriptor with the native capability set
(note: list_with_recursive stays at its default, false). -/
def WebhdfsBackend.info (root : String) : AccessorInfo :=
  { scheme := .Webhdfs
    root := root
    capability :=
      { stat := true
        read := true
        read_can_next := true
        read_with_range := true
        write := true
        create_dir := true
        delete := true
        list := true
        list_without_recursive := true } }

/-- WebHDFS FileStatusType (message.rs): DIRECTORY or FILE. -/
inductive FileStatusType
  | directory
  | file
  deriving DecidableEq, Repr

/-- WebHDFS FileStatus: the fields the embedded handlers consume. -/
structure FileStatus where
  ty : FileStatusType
  length : Nat := 0
  modification_time : Int := 0
  deriving DecidableEq, Repr

/-- A GETFILESTATUS response: status plus the decoded FileStatusWrapper body
(none models a serde_json parse failure). -/
structure WStatResponse where
  status : Status
  fileStatus : Option FileStatus := none
  deriving DecidableEq, Repr

/-- A CREATE/MKDIRS response: status plus the decoded BooleanResp body
(none models a serde_json parse failure). -/
structure WCreateResponse where
  status : Status
  boolean : Option Bool := none
  deriving DecidableEq, Repr

/-- WebhdfsBackend::create_dir's handling of the MKDIRS response: 201 or 200
with a decoded boolean true is Ok; boolean false is an Unexpected error;
anything else goes through the error funnel. -/
def WebhdfsBackend.create_dir (resp : WCreateResponse) : Except Error RpCreateDir :=
  if resp.status == 201 || resp.status == 200 then
    match resp.boolean with
    | none => .error new_json_deserialize_error
    | some true => .ok ()
    | some false => .error { kind := .Unexpected, message := "webhdfs create dir failed" }
  else .error (parse_error resp.status)

/-- WebhdfsBackend::check_root: stats "/"; a FILE root is a ConfigInvalid
error, a missing root is created via create_dir (whose response is the
second argument), any other failure goes through the error funnel. -/
def WebhdfsBackend.check_root (rootResp : WStatResponse)
    (createResp : WCreateResponse) : Except Error Unit :=
  if rootResp.status == 200 then
    match rootResp.fileStatus with
    | none => .error new_json_deserialize_error
    | some fs =>
      if fs.ty == .file then
        .error { kind := .ConfigInvalid, message := "root path must be dir" }
      else .ok ()
  else if rootResp.status == 404 then
    match WebhdfsBackend.create_dir createResp with
    | .ok _ => .ok ()
    | .error e => .error e
  else .error (parse_error rootResp.status)

/-- WebhdfsBackend::stat: first runs the once-memoized root check
(rootChecked models an already-populated OnceCell), then decodes the
GETFILESTATUS response.  There is no special case for the root path or for
trailing-slash paths: a 404 goes through the error funnel. -/
def WebhdfsBackend.stat (rootChecked : Bool) (rootResp : WStatResponse)
    (createResp : WCreateResponse) (_path : String) (resp : WStatResponse) :
    Except Error RpStat :=
  match (if rootChecked then Except.ok ()
         else WebhdfsBackend.check_root rootResp createResp) with
  | .error e => .error e
  | .ok _ =>
    if resp.status == 200 then
      match resp.fileStatus with
      | none => .error new_json_deserialize_error
      | some fs =>
        match fs.ty with
        | .directory => .ok { meta := { mode := .DIR } }
        | .file =>
          match parse_datetime_from_from_timestamp_millis fs.modification_time with
          | .error e => .error e
          | .ok t => .ok { meta :=
              { mode := .FILE
                content_length := some fs.length
                last_modified := some t } }
    else .error (parse_error resp.status)

/-- WebhdfsBackend::delete's handling of the DELETE response: only 200 OK is
Ok; everything else (404 included) goes through the error funnel. -/
def WebhdfsBackend.delete (resp : HttpResponse) : Except Error RpDelete :=
  if resp.status == 200 then .ok ()
  else .error (parse_error resp.status)

/-- WebhdfsBackend::read: webhdfs_open_request rejects a suffix range
(offset unset, size set) as Unsupported before sending; on the OPEN response
200/206 keep body and size, 403 with an "out of the range" body and 416 are
successful empty reads, anything else goes through the error funnel. -/
def WebhdfsBackend.read (args : OpRead) (resp : ReadResponse) :
    Except Error (RpRead × String) :=
  let range := args.range
  if !range.is_full && range.offset == none && !(range.size == none) then
    .error { kind := .Unsupported
             message := "webhdfs doesn't support read with suffix range" }
  else
    if resp.status == 200 || resp.status == 206 then
      .ok ({ size := resp.contentLength }, resp.body)
    else if resp.status == 403 then
      if containsSubstr resp.body "out of the range" then
        .ok ({ size := none }, "")
      else .error (parse_error resp.status)
    else if resp.status == 416 then
      .ok ({ size := none }, "")
    else .error (parse_error resp.status)

/-- OpList restricted to the arguments the embedded list handler consumes. -/
structure OpList where
  recursive : Bool := false
  limit : Option Nat := none
  start_after : Option String := none
  deriving DecidableEq, Repr

/-- The decoded DirectoryListingWrapper body of a LISTSTATUS_BATCH response:
the file statuses of the partial listing and the remaining-entries count. -/
structure DirectoryListing where
  file_statuses : List FileStatus := []
  remaining_entries : Nat := 0
  deriving DecidableEq, Repr

/-- A LISTSTATUS / LISTSTATUS_BATCH response (none bodies model serde_json
parse failures; batchBody for batch mode, plainBody for plain mode). -/
structure WListResponse where
  status : Status
  batchBody : Option DirectoryListing := none
  plainBody : Option (List FileStatus) := none
  deriving DecidableEq, Repr

/-- Modelled from the spec: the WebhdfsPager session state (pager.rs is not
under src/) — the path, the file statuses of the first page and the
remaining-entries counter set by set_remaining_entries. -/
structure WebhdfsPager where
  path : String
  statuses : List FileStatus
  remaining : Option Nat := none
  deriving DecidableEq, Repr

/-- WebhdfsBackend::list: a recursive listing is rejected as Unsupported
before any request; otherwise the trailing slash is trimmed and the
LISTSTATUS(_BATCH) response is decoded, a 404 yielding an immediately
exhausted pager. -/
def WebhdfsBackend.list (disable_list_batch : Bool) (path : String)
    (args : OpList) (resp : WListResponse) : Except Error (RpList × WebhdfsPager) :=
  if args.recursive then
    .error { kind := .Unsupported
             message := "WebHDFS doesn't support list with recursive" }
  else
    let path := rustTrimEndMatches path '/'
    if !disable_list_batch then
      if resp.status == 200 then
        match resp.batchBody with
        | none => .error new_json_deserialize_error
        | some dl => .ok ((), { path := path
                                statuses := dl.file_statuses
                                remaining := some dl.remaining_entries })
      else if resp.status == 404 then
        .ok ((), { path := path, statuses := [] })
      else .error (parse_error resp.status)
    else
      if resp.status == 200 then
        match resp.plainBody with
        | none => .error new_json_deserialize_error
        | some fss => .ok ((), { path := path, statuses := fss })
      else if resp.status == 404 then
        .ok ((), { path := path, statuses := [] })
      else .error (parse_error resp.status)

/-!  ## Helper lemmas  -/

/-- Mapping toLower fixes a char list whose chars are already lowercase. -/
theorem lowerList_fixed : ∀ l : List Char, (l.all fun c => c.toLower == c) = true →
    l.map Char.toLower = l := by
  intro l hl
  induction l with
  | nil => rfl
  | cons c cs ih =>
    simp only [List.all_cons, Bool.and_eq_true, beq_iff_eq] at hl
    simp [hl.1, ih hl.2]

/-- Lowercasing fixes a string whose chars are already lowercase. -/
theorem rustToLowercase_fixed (s : String) (h : isLowercaseStr s = true) :
    rustToLowercase s = s := by
  cases s with
  | mk data =>
    show String.mk (data.map Char.toLower) = String.mk data
    rw [lowerList_fixed data h]

/-!  ## Claims  -/

/-- C6: for every well-known scheme's canonical lowercase string, parsing it
with from_str and converting back with into_static yields the same string
again, and every lowercase string not recognized as well-known round-trips
through the Custom escape unchanged. -/
theorem C6_scheme_string_roundtrip :
    (∀ v : Scheme, v.isCustom = false →
      Scheme.into_static (Scheme.from_str (Scheme.into_static v)) =
        Scheme.into_static v) ∧
    ∀ s : String, isLowercaseStr s = true → Scheme.fromStrCore s = none →
      Scheme.from_str s = Scheme.Custom s := by
  constructor
  · intro v h
    cases v <;> first | rfl | simp [Scheme.isCustom] at h
  · intro s hl hn
    simp [Scheme.from_str, rustToLowercase_fixed s hl, hn]

/-- Witness for C6 at concrete inputs: the canonical string of Gcs and an
unrecognized lowercase string. -/
theorem C6_scheme_string_roundtrip_witness :
    Scheme.into_static (Scheme.from_str (Scheme.into_static Scheme.Gcs)) = "gcs" ∧
    Scheme.from_str "mycustomscheme" = Scheme.Custom "mycustomscheme" :=
  ⟨C6_scheme_string_roundtrip.1 Scheme.Gcs rfl,
   C6_scheme_string_roundtrip.2 "mycustomscheme" (by decide) (by decide)⟩

/-- C7: the string-to-kind mapping is not bidirectional on the whole
well-known set: from_str has no arm for "foundationdb", so the canonical
string of the non-Custom variant Foundationdb falls through to the Custom
escape instead of mapping back to Foundationdb — contradicting both the
spec's bidirectionality and the enum's own note that Custom must not
overwrite any existing service name. -/
theorem C7_from_str_foundationdb_bug :
    Scheme.from_str (Scheme.into_static Scheme.Foundationdb) =
      Scheme.Custom "foundationdb" ∧
    Scheme.Foundationdb.isCustom = false := by
  constructor <;> rfl

/-- C10 counterexample: GcsBuilder::bucket is a string-taking configuration
setter with no emptiness guard — applying it with the empty string to a
builder whose bucket is already set changes the builder's state. -/
theorem C10_empty_setter_counterexample :
    GcsBuilder.set_bucket { bucket := "b" } "" ≠ ({ bucket := "b" } : GcsBuilder) := by
  decide

/-- C10 amended: every string-taking configuration setter of the two
builders except GcsBuilder::bucket is a no-op on the empty string;
GcsBuilder::bucket assigns its argument unconditionally. -/
theorem C10_empty_setter_noop :
    (∀ b : GcsBuilder,
      GcsBuilder.set_root b "" = b ∧ GcsBuilder.set_scope b "" = b ∧
      GcsBuilder.set_service_account b "" = b ∧ GcsBuilder.set_endpoint b "" = b ∧
      GcsBuilder.set_credential b "" = b ∧ GcsBuilder.set_credential_path b "" = b ∧
      GcsBuilder.set_predefined_acl b "" = b ∧
      GcsBuilder.set_default_storage_class b "" = b) ∧
    (∀ b : WebhdfsBuilder,
      WebhdfsBuilder.set_root b "" = b ∧ WebhdfsBuilder.set_endpoint b "" = b ∧
      WebhdfsBuilder.set_delegation b "" = b) ∧
    ∀ (b : GcsBuilder) (v : String),
      GcsBuilder.set_bucket b v = { b with bucket := v } :=
  ⟨fun _ => ⟨rfl, rfl, rfl, rfl, rfl, rfl, rfl, rfl⟩,
   fun _ => ⟨rfl, rfl, rfl⟩,
   fun _ _ => rfl⟩

/-- C1 counterexample: for the WebHDFS backend a 404 Not-Found response to
the delete request does not produce Ok — the handler accepts only 200 OK. -/
theorem C1_webhdfs_delete_404_counterexample :
    exceptIsOk (WebhdfsBackend.delete { status := 404 }) = false := rfl

/-- C1 amended: GCS delete returns Ok exactly when the delete response has a
success status or is 404; WebHDFS delete returns Ok exactly when the
response is 200 OK, and surfaces a 404 as an Error. -/
theorem C1_delete_idempotence :
    (∀ resp : HttpResponse,
      exceptIsOk (GcsBackend.delete resp) =
        (statusIsSuccess resp.status || resp.status == 404)) ∧
    ∀ resp : HttpResponse,
      exceptIsOk (WebhdfsBackend.delete resp) = (resp.status == 200) := by
  constructor <;> intro resp <;>
    simp only [GcsBackend.delete, WebhdfsBackend.delete] <;>
    split <;> simp_all [exceptIsOk]

/-- C2: a read whose range lies past the object's end comes back as the
backend's out-of-range signal — HTTP 416 for GCS; HTTP 416, or 403 with an
"out of the range" body, for WebHDFS — and in each case the handler returns
a successful empty body with no resolved size, not an Error.  The WebHDFS
hypothesis excludes the suffix-range form that is rejected before any
request is sent. -/
theorem C2_past_end_read_empty :
    (∀ resp : ReadResponse, resp.status = 416 →
      GcsBackend.read resp = .ok ({ size := none }, "")) ∧
    ∀ (args : OpRead) (resp : ReadResponse),
      (args.range.offset == none && !(args.range.size == none)) = false →
      (resp.status = 416 → WebhdfsBackend.read args resp = .ok ({ size := none }, "")) ∧
      (resp.status = 403 → containsSubstr resp.body "out of the range" = true →
        WebhdfsBackend.read args resp = .ok ({ size := none }, "")) := by
  constructor
  · intro resp h
    simp [GcsBackend.read, h, statusIsSuccess]
  · intro args resp hsuf
    have hgate :
        (!args.range.is_full && args.range.offset == none &&
          !(args.range.size == none)) = false := by
      simp only [Bool.and_assoc, Bool.and_eq_false_iff] at hsuf ⊢
      tauto
    constructor
    · intro h
      simp [WebhdfsBackend.read, hgate, h]
    · intro h hbody
      simp [WebhdfsBackend.read, hgate, h, hbody]

/-- Witness for C2 at concrete inputs: a 416 response for both backends and
a 403 out-of-range response for WebHDFS. -/
theorem C2_past_end_read_empty_witness :
    GcsBackend.read { status := 416 } = .ok ({ size := none }, "") ∧
    WebhdfsBackend.read {} { status := 416 } = .ok ({ size := none }, "") ∧
    WebhdfsBackend.read { range := { offset := some 100 } }
        { status := 403, body := "Offset 100 is out of the range [0, 10)" } =
      .ok ({ size := none }, "") :=
  ⟨C2_past_end_read_empty.1 { status := 416 } rfl,
   (C2_past_end_read_empty.2 {} { status := 416 } (by decide)).1 rfl,
   (C2_past_end_read_empty.2 { range := { offset := some 100 } }
      { status := 403, body := "Offset 100 is out of the range [0, 10)" }
      (by decide)).2 rfl (by decide)⟩

/-- C3 counterexample: WebHDFS stat of the root can fail, so it is not
unconditional: when the backend reports the root as a FILE, the memoized
root check turns stat("/") into a ConfigInvalid error. -/
theorem C3_webhdfs_root_stat_counterexample :
    WebhdfsBackend.stat false
        { status := 200, fileStatus := some { ty := .file } } { status := 200 } "/"
        { status := 200, fileStatus := some { ty := .directory } } =
      .error { kind := .ConfigInvalid, message := "root path must be dir" } := rfl

/-- C3 amended: GCS stat of "/" returns DIR metadata unconditionally, for
every response; WebHDFS stat of "/" returns DIR metadata provided the root
check passes and the backend reports the root as a directory — it is not
failure-free. -/
theorem C3_root_stat_dir :
    (∀ (path : String) (resp : GStatResponse), path = "/" →
      GcsBackend.stat path resp = .ok { meta := { mode := .DIR } }) ∧
    ∀ (rc : Bool) (rootResp : WStatResponse) (createResp : WCreateResponse)
      (resp : WStatResponse) (fs : FileStatus),
      exceptIsOk (if rc then Except.ok ()
                  else WebhdfsBackend.check_root rootResp createResp) = true →
      resp.status = 200 → resp.fileStatus = some fs → fs.ty = .directory →
      WebhdfsBackend.stat rc rootResp createResp "/" resp =
        .ok { meta := { mode := .DIR } } := by
  constructor
  · intro path resp h
    subst h
    rfl
  · intro rc rootResp createResp resp fs hroot hst hfs hty
    unfold WebhdfsBackend.stat
    cases hchk : (if rc then Except.ok ()
                  else WebhdfsBackend.check_root rootResp createResp) with
    | error e =>
      rw [hchk] at hroot
      simp [exceptIsOk] at hroot
    | ok u =>
      simp [hst, hfs, hty]

/-- Witness for C3 at concrete inputs: GCS stat of "/" on a failing
response, WebHDFS stat of "/" with a memoized root check and a directory
answer. -/
theorem C3_root_stat_dir_witness :
    GcsBackend.stat "/" { status := 500 } = .ok { meta := { mode := .DIR } } ∧
    WebhdfsBackend.stat true { status := 500 } { status := 500 } "/"
        { status := 200, fileStatus := some { ty := .directory } } =
      .ok { meta := { mode := .DIR } } :=
  ⟨C3_root_stat_dir.1 "/" { status := 500 } rfl,
   C3_root_stat_dir.2 true { status := 500 } { status := 500 }
     { status := 200, fileStatus := some { ty := .directory } }
     { ty := .directory } rfl rfl rfl rfl⟩

/-- C8 counterexample: WebHDFS does not treat a missing trailing-slash path
as an implicit DIR — a 404 on "dir/" is sent through the error funnel (the
root check having already succeeded). -/
theorem C8_webhdfs_trailing_slash_counterexample :
    WebhdfsBackend.stat true { status := 200 } { status := 200 } "dir/"
        { status := 404 } = .error (parse_error 404) := rfl

/-- C8 amended: for GCS a 404 on a path ending in '/' yields Ok DIR
metadata (an implicit empty directory); for WebHDFS the 404 is surfaced as
an Error. -/
theorem C8_trailing_slash_stat :
    (∀ (path : String) (resp : GStatResponse),
      resp.status = 404 → strEndsWith path "/" = true →
      GcsBackend.stat path resp = .ok { meta := { mode := .DIR } }) ∧
    ∀ (path : String) (resp : WStatResponse), resp.status = 404 →
      WebhdfsBackend.stat true { status := 200 } { status := 200 } path resp =
        .error (parse_error 404) := by
  constructor
  · intro path resp h hslash
    by_cases hp : (path == "/") = true
    · simp [GcsBackend.stat, hp]
    · simp [GcsBackend.stat, hp, h, hslash, statusIsSuccess]
  · intro path resp h
    simp [WebhdfsBackend.stat, h]

/-- Witness for C8 at concrete inputs. -/
theorem C8_trailing_slash_stat_witness :
    GcsBackend.stat "dir/" { status := 404 } = .ok { meta := { mode := .DIR } } ∧
    WebhdfsBackend.stat true { status := 200 } { status := 200 } "x/"
        { status := 404 } = .error (parse_error 404) :=
  ⟨C8_trailing_slash_stat.1 "dir/" { status := 404 } rfl (by decide),
   C8_trailing_slash_stat.2 "x/" { status := 404 } rfl⟩

set_option maxRecDepth 8000 in
/-- C4 counterexample: a batch of 150 operations is rejected as Unsupported,
but the requested count travels under the context key "length", not
"count": the produced error holds no "count" entry. -/
theorem C4_batch_context_counterexample :
    GcsBackend.batch (List.replicate 150 ("k", BatchOperation.Delete))
        { status := 200 } =
      some (.error
        { kind := .Unsupported
          message := "gcs services only allow delete less than 100 keys at once"
          context := [("length", "150")] }) ∧
    Error.ctxGet
        { kind := .Unsupported
          message := "gcs services only allow delete less than 100 keys at once"
          context := [("length", "150")] } "count" = none := by
  constructor <;> rfl

/-- C4 amended: the capability advertises batch_max_operations = 100, and a
batch of more than 100 operations is rejected as Unsupported carrying the
requested count under the context key "length", with the same result for
every response — i.e. before any network call. -/
theorem C4_batch_limit :
    (∀ root bucket,
      (GcsBackend.info root bucket).capability.batch_max_operations = some 100) ∧
    ∀ (ops : List (String × BatchOperation)) (resp : BatchResponse),
      ops.length > 100 →
      GcsBackend.batch ops resp =
        some (.error
          { kind := .Unsupported
            message := "gcs services only allow delete less than 100 keys at once"
            context := [("length", toString ops.length)] }) := by
  refine ⟨fun _ _ => rfl, fun ops resp h => ?_⟩
  simp [GcsBackend.batch, h, Error.with_context]

set_option maxRecDepth 8000 in
/-- Witness for C4: 150 delete keys, rejected identically under an absent
response. -/
theorem C4_batch_limit_witness :
    GcsBackend.batch (List.replicate 150 ("p", BatchOperation.Delete))
        { status := 404 } =
      some (.error
        { kind := .Unsupported
          message := "gcs services only allow delete less than 100 keys at once"
          context := [("length", "150")] }) :=
  (C4_batch_limit.2 (List.replicate 150 ("p", BatchOperation.Delete))
    { status := 404 } (by decide)).trans (by rfl)

/-- The per-part loop pairs part i with input i when the counts agree. -/
theorem gcsBatchLoop_zip :
    ∀ (ops : List (String × BatchOperation)) (parts : List Status),
      parts.length = ops.length →
      gcsBatchLoop (ops.map Prod.fst) parts =
        some (List.zipWith
          (fun (op : String × BatchOperation) st =>
            (op.1, if statusIsSuccess st || st == 404
                   then Except.ok BatchedReply.Delete
                   else Except.error (parse_error st)))
          ops parts) := by
  intro ops
  induction ops with
  | nil =>
    intro parts h
    cases parts with
    | nil => rfl
    | cons p ps => simp at h
  | cons o os ih =>
    intro parts h
    cases parts with
    | nil => rfl
    | cons st rest =>
      have h' : rest.length = os.length := by simpa using h
      simp only [List.map_cons, gcsBatchLoop, ih rest h', List.zipWith_cons_cons]
      by_cases hc : (statusIsSuccess st || st == 404) = true
      · simp [hc]
      · simp [hc]

/-- C5: when the aggregate batch response is 200 with a multipart content
type and its body decodes into exactly as many parts as there are input
operations, batch returns one outcome per input, in input order, the i-th
outcome paired with the i-th input path; a success or 404 part is a
per-item success, any other part status a per-item Error, and a non-200
aggregate status is one whole-batch Error. -/
theorem C5_batch_decode :
    ∀ (ops : List (String × BatchOperation)) (resp : BatchResponse)
      (ct : String) (parts : List Status),
      ops.length ≤ 100 →
      (resp.status = 200 →
        resp.contentType = some ct →
        (stripLeading "multipart/mixed; boundary=" ct).isSome = true →
        resp.parts = some parts →
        parts.length = ops.length →
        GcsBackend.batch ops resp =
          some (.ok (List.zipWith
            (fun (op : String × BatchOperation) st =>
              (op.1, if statusIsSuccess st || st == 404
                     then Except.ok BatchedReply.Delete
                     else Except.error (parse_error st))) ops parts))) ∧
      (resp.status ≠ 200 →
        GcsBackend.batch ops resp = some (.error (parse_error resp.status))) := by
  intro ops resp ct parts hlen
  have hnot : ¬ (ops.length > 100) := by omega
  constructor
  · intro hst hct hboundary hparts hplen
    obtain ⟨b, hb⟩ := Option.isSome_iff_exists.mp hboundary
    simp [GcsBackend.batch, hnot, hst, hct, hb, hparts, gcsBatchLoop_zip ops parts hplen]
  · intro hst
    simp [GcsBackend.batch, hnot, hst]

/-- Witness for C5: the spec's two-part scenario — a success part and a
not-found part decode to two ordered successes matching the input order. -/
theorem C5_batch_decode_witness :
    GcsBackend.batch [("p0", BatchOperation.Delete), ("p1", BatchOperation.Delete)]
        { status := 200
          contentType := some "multipart/mixed; boundary=batch_1"
          parts := some [204, 404] } =
      some (.ok [("p0", Except.ok BatchedReply.Delete),
                 ("p1", Except.ok BatchedReply.Delete)]) := by
  have h := ((C5_batch_decode
    [("p0", BatchOperation.Delete), ("p1", BatchOperation.Delete)]
    { status := 200
      contentType := some "multipart/mixed; boundary=batch_1"
      parts := some [204, 404] }
    "multipart/mixed; boundary=batch_1" [204, 404]
    (by decide)).1 rfl rfl (by decide) rfl rfl)
  exact h.trans (by rfl)

/-- C9: the WebHDFS capability declares list_without_recursive but not
list_with_recursive, and a recursive list is rejected as Unsupported with
the same result for every response — i.e. before any listing request. -/
theorem C9_webhdfs_recursive_list_unsupported :
    (∀ root, (WebhdfsBackend.info root).capability.list_without_recursive = true ∧
      (WebhdfsBackend.info root).capability.list_with_recursive = false) ∧
    ∀ (dlb : Bool) (path : String) (args : OpList) (resp : WListResponse),
      args.recursive = true →
      WebhdfsBackend.list dlb path args resp =
        .error { kind := .Unsupported
                 message := "WebHDFS doesn't support list with recursive" } := by
  refine ⟨fun _ => ⟨rfl, rfl⟩, fun dlb path args resp h => ?_⟩
  simp [WebhdfsBackend.list, h]

/-- Witness for C9: a concrete recursive list request is rejected under an
arbitrary response. -/
theorem C9_webhdfs_recursive_list_unsupported_witness :
    WebhdfsBackend.list false "dir" { recursive := true } { status := 200 } =
      .error { kind := .Unsupported
               message := "WebHDFS doesn't support list with recursive" } :=
  C9_webhdfs_recursive_list_unsupported.2 false "dir" { recursive := true }
    { status := 200 } rfl

end Opendal

